import Mathlib

/-!
Verification of the sse-starlette core against its specification.

Shallow embedding of `src/sse_starlette/sse.py` (with the sibling
implementations in `event.py` and `appstatus.py` noted where they agree):

* the `ServerSentEvent` wire encoder (`ServerSentEvent.encode`),
* the input-normalisation function `ensure_bytes`,
* the construction-time validation of `EventSourceResponse.__init__`
  (separator check and the `ping_interval` property setter),
* the write loop of `EventSourceResponse.stream_response` together with the
  task-group cancellation behaviour of `EventSourceResponse.__call__`,
* the shutdown listener `listen_for_exit_signal`.

Python `bytes` values produced by the encoder are UTF-8 encodings of the
string held in the `io.StringIO` buffer; since UTF-8 encoding is injective
we model the produced byte string by the Lean `String` itself, and byte
literals such as b"data: 1\r\n\r\n" by the corresponding string literal.
-/

deriving instance DecidableEq for Except

namespace SSEStarlette

/-- Python runtime values that flow into `ServerSentEvent` fields in the
code paths modelled here: integers (covering `bool`, a Python `int`
subclass), strings, and `None`. -/
inductive PyVal where
  | pyInt (n : Int)
  | pyStr (s : String)
  | pyNone
deriving DecidableEq, Repr

/-- Python `str()` on the values of `PyVal` (as used by `str(self.data)`,
`f"id: {self.id}"`, etc. in `ServerSentEvent.encode`). -/
def pyToString : PyVal → String
  | .pyInt n => toString n
  | .pyStr s => s
  | .pyNone => "None"

/-- Is this character one of the two newline characters matched by
`LINE_SEP_EXPR = re.compile(r"\r\n|\r|\n")`? -/
def isNewlineChar (c : Char) : Bool := c = '\r' || c = '\n'

/-- Model of `LINE_SEP_EXPR.split(s)` on the character list: split on
`\r\n` (matched first by the alternation), `\r`, or `\n`.  The first
argument is the reversed accumulator of the current fragment. -/
def splitNewlinesAux : List Char → List Char → List (List Char)
  | acc, [] => [acc.reverse]
  | acc, '\r' :: '\n' :: rest => acc.reverse :: splitNewlinesAux [] rest
  | acc, '\r' :: rest => acc.reverse :: splitNewlinesAux [] rest
  | acc, '\n' :: rest => acc.reverse :: splitNewlinesAux [] rest
  | acc, c :: rest => splitNewlinesAux (c :: acc) rest

/-- Model of `LINE_SEP_EXPR.split(s)`: the list of newline-free fragments,
with empty fragments preserved. -/
def splitNewlines (s : String) : List String :=
  (splitNewlinesAux [] s.data).map String.mk

/-- Model of `LINE_SEP_EXPR.sub("", s)`.  Every `\r` and `\n` character of
`s` lies in exactly one match of the alternation `\r\n|\r|\n`, and each
match is replaced by the empty string, so the substitution removes exactly
the newline characters. -/
def stripNewlinesList : List Char → List Char
  | [] => []
  | c :: rest =>
    if isNewlineChar c then stripNewlinesList rest
    else c :: stripNewlinesList rest

/-- String version of `stripNewlinesList`. -/
def stripNewlines (s : String) : String := String.mk (stripNewlinesList s.data)

/-- Does the string contain a newline character (i.e. span more than one
physical wire line)? -/
def containsNewline (s : String) : Bool := s.data.any isNewlineChar

/-- The `ServerSentEvent` data model of `sse.py` (the string-based class in
`event.py` is identical for the cases modelled here).  A field holding
Python `None` is represented by `none`; `sep` holds the resolved `_sep`
(`sep if sep is not None else DEFAULT_SEPARATOR` with
`DEFAULT_SEPARATOR = "\r\n"`). -/
structure ServerSentEvent where
  data : Option PyVal := none
  event : Option PyVal := none
  id : Option PyVal := none
  retry : Option PyVal := none
  comment : Option PyVal := none
  sep : String := "\r\n"
deriving DecidableEq, Repr

/-- Python `isinstance(self.retry, int)` holds (or `retry` is unset), so
`encode` does not raise. -/
def retryWellTyped (e : ServerSentEvent) : Bool :=
  match e.retry with
  | none => true
  | some (.pyInt _) => true
  | some _ => false

/-- Model of `ServerSentEvent.encode` (sse.py lines 103-130): sequential
writes into a `StringIO` buffer — comment lines, id line, event line, data
lines, retry line, then one final separator write.  A non-`int` `retry`
raises `TypeError("retry argument must be int")`; the exception propagates
and the buffer is discarded, modelled by `Except.error`. -/
def ServerSentEvent.encode (e : ServerSentEvent) : Except String String :=
  let buf : String := ""
  let buf := match e.comment with
    | none => buf
    | some c =>
      (splitNewlines (pyToString c)).foldl (fun b chunk => b ++ (": " ++ chunk ++ e.sep)) buf
  let buf := match e.id with
    | none => buf
    | some i => buf ++ (stripNewlines ("id: " ++ pyToString i) ++ e.sep)
  let buf := match e.event with
    | none => buf
    | some ev => buf ++ (stripNewlines ("event: " ++ pyToString ev) ++ e.sep)
  let buf := match e.data with
    | none => buf
    | some d =>
      (splitNewlines (pyToString d)).foldl (fun b chunk => b ++ ("data: " ++ chunk ++ e.sep)) buf
  match e.retry with
  | none => .ok (buf ++ e.sep)
  | some (.pyInt n) => .ok (buf ++ ("retry: " ++ toString n ++ e.sep) ++ e.sep)
  | some _ => .error "retry argument must be int"

/-- The content values a producer can yield to the driver, in the order
`ensure_bytes` dispatches on them: pre-encoded `bytes`, a
`ServerSentEvent` instance, a `dict`, or any other value. -/
inductive Content where
  | bytes (b : String)
  | sse (e : ServerSentEvent)
  | dict (m : List (String × PyVal))
  | other (v : PyVal)
deriving DecidableEq, Repr

/-- Python dict item assignment `m[k] = v`: overwrite the entry for `k` in
place if present (a Python dict holds each key once), otherwise append a
new entry. -/
def dictSet : List (String × PyVal) → String → PyVal → List (String × PyVal)
  | [], k, v => [(k, v)]
  | (k1, v1) :: rest, k, v =>
    if k1 = k then (k, v) :: rest else (k1, v1) :: dictSet rest k v

/-- Python dict read `m.get(k)`: the value of the first entry for `k`. -/
def dictGet : List (String × PyVal) → String → Option PyVal
  | [], _ => none
  | (k1, v1) :: rest, k => if k1 = k then some v1 else dictGet rest k

/-- One keyword argument of `ServerSentEvent(**data)`.  Known keys set the
corresponding field (a `None` value leaves the field unset, matching the
`is not None` checks of `encode`); `sep=None` keeps the default separator;
an unknown key raises `TypeError` (unexpected keyword argument).  A
non-string `sep` would only fail later inside `encode`'s buffer writes;
`ensure_bytes` always overwrites `sep` with the response separator string
before construction, so that branch is modelled as an immediate error and
is never reached from `ensure_bytes`. -/
def applyKwarg (e : ServerSentEvent) : String × PyVal → Except String ServerSentEvent
  | ("data", v) => .ok { e with data := if v = .pyNone then none else some v }
  | ("event", v) => .ok { e with event := if v = .pyNone then none else some v }
  | ("id", v) => .ok { e with id := if v = .pyNone then none else some v }
  | ("retry", v) => .ok { e with retry := if v = .pyNone then none else some v }
  | ("comment", v) => .ok { e with comment := if v = .pyNone then none else some v }
  | ("sep", .pyStr s) => .ok { e with sep := s }
  | ("sep", .pyNone) => .ok e
  | ("sep", _) => .error "sep must be a string"
  | (k, _) => .error ("unexpected keyword argument: " ++ k)

/-- `ServerSentEvent(**data)` for a keyword mapping. -/
def sseFromKwargs (m : List (String × PyVal)) : Except String ServerSentEvent :=
  m.foldlM applyKwarg {}

/-- Model of `ensure_bytes(data, sep)` (sse.py lines 133-142; the copy in
event.py lines 229-237 behaves identically here): `bytes` pass through
unchanged, a `ServerSentEvent` encodes itself with its own separator, a
`dict` is first mutated in place by `data["sep"] = sep` and then used as
keyword arguments, and any other value is wrapped as `str(data)` in a
data-only event.  The first component returns the (possibly mutated)
input, making the in-place dict update explicit. -/
def ensure_bytes (data : Content) (sep : String) : Content × Except String String :=
  match data with
  | .bytes b => (data, .ok b)
  | .sse e => (data, e.encode)
  | .dict m =>
    let m1 := dictSet m "sep" (.pyStr sep)
    (.dict m1, (sseFromKwargs m1).bind ServerSentEvent.encode)
  | .other v => (data, ServerSentEvent.encode { data := some (.pyStr (pyToString v)), sep := sep })

/-- One transport message sent by the driver, as passed to the ASGI `send`
callable: the response start, or a body write with its `more_body` flag. -/
inductive AsgiMessage where
  | start (status : Nat)
  | body (chunk : String) (more_body : Bool)
deriving DecidableEq, Repr

/-- Is this the terminal write `{"body": b"", "more_body": False}`? -/
def isTerminalWrite : AsgiMessage → Bool
  | .start _ => false
  | .body chunk more => !more && (chunk == "")

/-- Number of terminal writes in a transport trace. -/
def terminalCount (msgs : List AsgiMessage) : Nat := msgs.countP isTerminalWrite

/-- The `async for` write loop of `stream_response` (sse.py lines
253-261).  `events` is the finite sequence the body iterator yields;
`timeouts` records, per write, whether `asyncio.timeout(self.send_timeout)`
expired during that `send` (always `false` when `send_timeout` is `None`).
Behaviour per iteration: `ensure_bytes` runs first — an exception there
propagates out of the loop (second component `false`) and nothing more is
sent; a send that times out delivers nothing, the `TimeoutError` is caught,
the body iterator is closed via `aclose()`, and the loop terminates
normally on the next pull; otherwise the chunk is sent with
`more_body=True`.  The returned flag is `true` iff the loop exited
normally (exhaustion or timeout) rather than by a raised exception. -/
def writeLoop (sep : String) : List Content → List Bool → List AsgiMessage × Bool
  | [], _ => ([], true)
  | d :: rest, timeouts =>
    match (ensure_bytes d sep).2 with
    | .error _ => ([], false)
    | .ok chunk =>
      match timeouts with
      | true :: _ => ([], true)
      | ts =>
        let r := writeLoop sep rest ts.tail
        (.body chunk true :: r.1, r.2)

/-- Model of `stream_response` run to completion (sse.py lines 245-265):
the `http.response.start` message, the write-loop body writes, and — when
the loop exits normally — the single terminal write issued under
`self._send_lock` after flipping `self.active` to `False` (the flag stops
the ping task, whose writes all carry `more_body=True` and so never add a
terminal write).  When the write loop raises, the exception propagates out
of `stream_response` and no terminal write is sent. -/
def stream_response (events : List Content) (timeouts : List Bool) (sep : String)
    (status : Nat) : List AsgiMessage × Bool :=
  let r := writeLoop sep events timeouts
  if r.2 then (.start status :: (r.1 ++ [.body "" false]), true)
  else (.start status :: r.1, false)

/-- The transport trace of one connection as driven by `__call__` (sse.py
lines 267-291).  `cancelAt = none` models a run in which `stream_response`
runs to completion (exhaustion, timeout or producer error).  `cancelAt =
some n` models the disconnect path: `listen_for_disconnect` finishes and
its done-callback calls `tg._abort()`, which cancels `stream_response` at
whatever await point it has reached, so the transport has received only a
prefix of its sends — `n` is the number of messages delivered before the
cancellation took effect. -/
def driverSends (events : List Content) (timeouts : List Bool) (sep : String)
    (status : Nat) (cancelAt : Option Nat) : List AsgiMessage :=
  match cancelAt with
  | none => (stream_response events timeouts sep status).1
  | some n => (stream_response events timeouts sep status).1.take n

/-- Model of `EventSourceResponse.__init__`'s separator validation (sse.py
lines 178-181): a non-`None` separator outside the three allowed values
raises `ValueError`; `None` selects `DEFAULT_SEPARATOR = "\r\n"`. -/
def checkSep : Option String → Except String String
  | none => .ok "\r\n"
  | some s =>
    if s = "\r\n" ∨ s = "\r" ∨ s = "\n" then .ok s
    else .error ("sep must be one of: \\r\\n, \\r, \\n, got: " ++ s)

/-- Python `ping or self.DEFAULT_PING_INTERVAL` (sse.py line 212): `None`
and the falsy number `0` both select the default. -/
def pyOrDefault (ping : Option ℚ) (dflt : ℚ) : ℚ :=
  match ping with
  | none => dflt
  | some p => if p = 0 then dflt else p

/-- The `ping_interval` property setter (sse.py lines 301-313): a value
`<= 0` raises `ValueError` (the numeric type check always passes in this
model). -/
def set_ping_interval (value : ℚ) : Except String ℚ :=
  if value ≤ 0 then .error "ping interval must be greater than 0" else .ok value

/-- The configuration state produced by a successful
`EventSourceResponse.__init__`. -/
structure ESRInit where
  sep : String
  ping_interval : ℚ
deriving DecidableEq, Repr

/-- The validation performed by `EventSourceResponse.__init__` (sse.py
lines 165-218), in source order: the separator check runs first (line
178), then `self.ping_interval = ping or self.DEFAULT_PING_INTERVAL`
(line 212) runs the property setter, with `DEFAULT_PING_INTERVAL = 15`.
No I/O happens during construction. -/
def esr_init (ping : Option ℚ) (sep : Option String) : Except String ESRInit :=
  match checkSep sep with
  | .error e => .error e
  | .ok s =>
    match set_ping_interval (pyOrDefault ping 15) with
    | .error e => .error e
    | .ok v => .ok ⟨s, v⟩

/-- The module-level `AppStatus` state read and written by
`listen_for_exit_signal`: the `should_exit` flag and whether
`should_exit_event` has been created (is not `None`). -/
structure AppStatusState where
  should_exit : Bool
  event_created : Bool
deriving DecidableEq, Repr

/-- How a call to `listen_for_exit_signal` leaves the coroutine: an
immediate return, or suspended in `await should_exit_event.wait()`. -/
inductive ListenOutcome where
  | immediateReturn
  | waitsOnEvent
deriving DecidableEq, Repr

/-- Model of `listen_for_exit_signal` (sse.py lines 228-243; the copy in
appstatus.py lines 121-135 is identical): check `should_exit`; if unset,
create the event when missing; re-check `should_exit`; only then wait.
`flagSetDuringSetup` is `true` when a concurrent `handle_exit` sets
`should_exit` between the first check and the second (the race the
double-check exists for).  Returns the outcome and the final
`AppStatus` state. -/
def listen_for_exit_signal (s : AppStatusState) (flagSetDuringSetup : Bool) :
    ListenOutcome × AppStatusState :=
  if s.should_exit then (.immediateReturn, s)
  else
    let s1 := if s.event_created then s else { s with event_created := true }
    let s2 := if flagSetDuringSetup then { s1 with should_exit := true } else s1
    if s2.should_exit then (.immediateReturn, s2)
    else (.waitsOnEvent, s2)

/-! Helper lemmas about the newline utilities and the encoder. -/

theorem stripNewlinesList_eq_filter (l : List Char) :
    stripNewlinesList l = l.filter (fun c => !isNewlineChar c) := by
  induction l with
  | nil => rfl
  | cons c rest ih =>
    simp only [stripNewlinesList, List.filter_cons, ih]
    cases h : isNewlineChar c <;> simp [h]

theorem containsNewline_stripNewlines (s : String) :
    containsNewline (stripNewlines s) = false := by
  simp only [containsNewline, stripNewlines, stripNewlinesList_eq_filter]
  rw [List.any_eq_false]
  intro c hc
  have h2 := (List.mem_filter.mp hc).2
  simpa using h2

theorem stripNewlines_append (a b : String) :
    stripNewlines (a ++ b) = stripNewlines a ++ stripNewlines b := by
  apply String.ext
  simp [stripNewlines, stripNewlinesList_eq_filter, String.data_append, List.filter_append]

/-- Concatenate the per-line wire strings of one field. -/
def joinParts (l : List String) : String := l.foldr (fun a b => a ++ b) ""

theorem foldl_write (f : String → String) (l : List String) (init : String) :
    l.foldl (fun b chunk => b ++ f chunk) init = init ++ joinParts (l.map f) := by
  induction l generalizing init with
  | nil => simp [joinParts]
  | cons a t ih =>
    simp only [List.foldl_cons, List.map_cons, joinParts, List.foldr_cons] at *
    rw [ih, String.append_assoc]

/-- The comment lines of the encoded event: one `": "`-prefixed,
separator-terminated line per newline-split fragment. -/
def commentPart (e : ServerSentEvent) : String :=
  match e.comment with
  | none => ""
  | some c => joinParts ((splitNewlines (pyToString c)).map (fun chunk => ": " ++ chunk ++ e.sep))

/-- The id line of the encoded event: newline characters stripped, one
physical line. -/
def idPart (e : ServerSentEvent) : String :=
  match e.id with
  | none => ""
  | some i => stripNewlines ("id: " ++ pyToString i) ++ e.sep

/-- The event-type line of the encoded event: newline characters stripped,
one physical line. -/
def eventPart (e : ServerSentEvent) : String :=
  match e.event with
  | none => ""
  | some ev => stripNewlines ("event: " ++ pyToString ev) ++ e.sep

/-- The data lines of the encoded event: one `"data: "`-prefixed,
separator-terminated line per newline-split fragment. -/
def dataPart (e : ServerSentEvent) : String :=
  match e.data with
  | none => ""
  | some d => joinParts ((splitNewlines (pyToString d)).map (fun chunk => "data: " ++ chunk ++ e.sep))

/-- The retry line of the encoded event (well-typed retry only). -/
def retryPart (e : ServerSentEvent) : String :=
  match e.retry with
  | some (.pyInt n) => "retry: " ++ toString n ++ e.sep
  | _ => ""

/-- Decomposition of a successful `encode`: the fields appear in the fixed
source order comment, id, event, data, retry, followed by the single final
separator-only line. -/
theorem encode_parts (e : ServerSentEvent) (h : retryWellTyped e = true) :
    e.encode =
      .ok (commentPart e ++ (idPart e ++ (eventPart e ++ (dataPart e ++ (retryPart e ++ e.sep))))) := by
  obtain ⟨d, ev, i, r, c, sep⟩ := e
  rcases r with _ | rv
  · rcases c with _ | cv <;> rcases i with _ | iv <;> rcases ev with _ | evv <;>
      rcases d with _ | dv <;>
      simp [ServerSentEvent.encode, commentPart, idPart, eventPart, dataPart, retryPart,
        foldl_write, String.append_assoc]
  · rcases rv with n | s | _
    · rcases c with _ | cv <;> rcases i with _ | iv <;> rcases ev with _ | evv <;>
        rcases d with _ | dv <;>
        simp [ServerSentEvent.encode, commentPart, idPart, eventPart, dataPart, retryPart,
          foldl_write, String.append_assoc]
    · simp [retryWellTyped] at h
    · simp [retryWellTyped] at h

/-- Prepending a `more_body=True` write does not change the terminal
count. -/
theorem terminalCount_cons_more (chunk : String) (l : List AsgiMessage) :
    terminalCount (AsgiMessage.body chunk true :: l) = terminalCount l := by
  simp [terminalCount, List.countP_cons, isTerminalWrite]

/-- Prepending the response-start message does not change the terminal
count. -/
theorem terminalCount_cons_start (status : Nat) (l : List AsgiMessage) :
    terminalCount (AsgiMessage.start status :: l) = terminalCount l := by
  simp [terminalCount, List.countP_cons, isTerminalWrite]

/-- No write issued inside the write loop is a terminal write: every body
write there carries `more_body=True`. -/
theorem writeLoop_no_terminal (sep : String) (events : List Content) (timeouts : List Bool) :
    terminalCount (writeLoop sep events timeouts).1 = 0 := by
  induction events generalizing timeouts with
  | nil => rfl
  | cons d rest ih =>
    simp only [writeLoop]
    cases (ensure_bytes d sep).2 with
    | error e => rfl
    | ok chunk =>
      cases timeouts with
      | nil =>
        show terminalCount (AsgiMessage.body chunk true :: (writeLoop sep rest []).1) = 0
        rw [terminalCount_cons_more]
        exact ih []
      | cons t ts =>
        cases t with
        | true => rfl
        | false =>
          show terminalCount (AsgiMessage.body chunk true :: (writeLoop sep rest ts).1) = 0
          rw [terminalCount_cons_more]
          exact ih ts

/-- A completed `stream_response` run contains exactly one terminal write
when the write loop exits normally, and none when the producer raised. -/
theorem terminalCount_stream_response (events : List Content) (timeouts : List Bool)
    (sep : String) (status : Nat) :
    terminalCount (stream_response events timeouts sep status).1
      = if (writeLoop sep events timeouts).2 then 1 else 0 := by
  simp only [stream_response]
  cases h : (writeLoop sep events timeouts).2 with
  | false =>
    simp only [h, Bool.false_eq_true, if_false]
    rw [terminalCount_cons_start, writeLoop_no_terminal]
  | true =>
    simp only [h, if_true]
    rw [terminalCount_cons_start]
    simp only [terminalCount, List.countP_append]
    have h0 := writeLoop_no_terminal sep events timeouts
    simp only [terminalCount] at h0
    rw [h0]
    rfl

/-- A prefix of a trace has at most as many terminal writes as the trace. -/
theorem terminalCount_take_le (msgs : List AsgiMessage) (n : Nat) :
    terminalCount (msgs.take n) ≤ terminalCount msgs :=
  List.Sublist.countP_le _ (List.take_sublist n msgs)

/-- Reading the key just set by `dictSet` yields the new value. -/
theorem dictGet_dictSet_self (m : List (String × PyVal)) (k : String) (v : PyVal) :
    dictGet (dictSet m k v) k = some v := by
  induction m with
  | nil => simp [dictSet, dictGet]
  | cons kv rest ih =>
    obtain ⟨k1, v1⟩ := kv
    by_cases h : k1 = k <;> simp [dictSet, dictGet, h, ih]

/-- `dictSet` leaves every other key's binding unchanged. -/
theorem dictGet_dictSet_ne (m : List (String × PyVal)) (k k' : String) (v : PyVal)
    (h : k' ≠ k) :
    dictGet (dictSet m k v) k' = dictGet m k' := by
  induction m with
  | nil =>
    simp [dictSet, dictGet, Ne.symm h]
  | cons kv rest ih =>
    obtain ⟨k1, v1⟩ := kv
    by_cases h1 : k1 = k
    · subst h1
      have hk : ¬k1 = k' := fun hh => h (hh.symm)
      simp [dictSet, dictGet, hk]
    · by_cases h2 : k1 = k'
      · simp [dictSet, dictGet, h1, h2, h]
      · simp [dictSet, dictGet, h1, h2, ih]

/-! The claims. -/

/-- Claim C1, as stated, is false: on the disconnect exit path the done
callback of `listen_for_disconnect` calls `tg._abort()`, which cancels
`stream_response` before its final write.  Concretely, for a producer
yielding one pre-encoded chunk, a disconnect that cancels the stream task
after only the `http.response.start` message was delivered leaves a
transport trace with zero terminal writes, not exactly one. -/
theorem C1_counterexample :
    terminalCount
      (driverSends [Content.bytes "data: 1\r\n\r\n"] [] "\r\n" 200 (some 1)) ≠ 1 := by
  decide

/-- Claim C1 (amended): every connection trace contains at most one
terminal write, and when `stream_response` runs to completion with its
write loop exiting normally (event-source exhaustion or send timeout) the
trace contains exactly one terminal write; a cancellation triggered by
disconnect (or a producer exception) can cut the trace before the terminal
write, leaving zero. -/
theorem C1_terminal_write (events : List Content) (timeouts : List Bool) (sep : String)
    (status : Nat) (cancelAt : Option Nat) :
    terminalCount (driverSends events timeouts sep status cancelAt) ≤ 1 ∧
    ((writeLoop sep events timeouts).2 = true →
      terminalCount (driverSends events timeouts sep status none) = 1) := by
  have hfull : terminalCount (stream_response events timeouts sep status).1 ≤ 1 := by
    rw [terminalCount_stream_response]
    split <;> simp
  constructor
  · cases cancelAt with
    | none =>
      simpa only [driverSends] using hfull
    | some n =>
      simp only [driverSends]
      exact le_trans (terminalCount_take_le _ n) hfull
  · intro h
    simp only [driverSends]
    rw [terminalCount_stream_response, h, if_pos rfl]

/-- Witness for C1 at a concrete connection: a one-event stream cancelled
after one message has at most one terminal write, and run to completion
has exactly one. -/
theorem C1_terminal_write_witness :
    terminalCount (driverSends [Content.bytes "x"] [] "\r\n" 200 (some 1)) ≤ 1 ∧
    terminalCount (driverSends [Content.bytes "x"] [] "\r\n" 200 none) = 1 := by
  have h := C1_terminal_write [Content.bytes "x"] [] "\r\n" 200 (some 1)
  exact ⟨h.1, h.2 (by decide)⟩

/-- Claim C2 is right and the code is wrong: evaluating the write loop at
the failing input of `tests/test_event_source_response.py::test_send_timeout`
(the producer yields `{"event": "some", "data": "any"}` and the send times
out) shows the code swallow the `asyncio.TimeoutError`: the run completes
normally (second component `true`, i.e. no exception propagates), the
event chunk is never delivered, and a clean terminal write is sent —
instead of raising `SendTimeoutError`, which `sse.py` does not even
define although the test imports it from there and expects it. -/
theorem C2_timeout_swallowed :
    stream_response [Content.dict [("event", PyVal.pyStr "some"), ("data", PyVal.pyStr "any")]]
        [true] "\r\n" 200
      = ([AsgiMessage.start 200, AsgiMessage.body "" false], true) := by
  decide

/-- Claim C3, as stated, is false at `ping_interval = 0`: line 212 of
sse.py computes `ping or DEFAULT_PING_INTERVAL`, and the falsy value `0`
silently selects the default 15, so construction succeeds although
`0 <= 0`. -/
theorem C3_counterexample : esr_init (some 0) none = .ok ⟨"\r\n", 15⟩ := by
  decide

/-- Claim C3 (amended): every strictly negative `ping_interval` raises
`ValueError` at construction, `ping_interval = 0` is silently replaced by
the default 15 (Python `or` treats `0` as falsy) and construction
succeeds, every separator outside the three allowed values raises
`ValueError`, and the default `ping_interval` is 15; all of this happens
at construction time, before any I/O. -/
theorem C3_construction_validation (p : ℚ) (s : String) (hp : p < 0)
    (hs1 : s ≠ "\r\n") (hs2 : s ≠ "\r") (hs3 : s ≠ "\n") :
    esr_init (some p) none = .error "ping interval must be greater than 0" ∧
    (∀ ping, esr_init ping (some s)
      = .error ("sep must be one of: \\r\\n, \\r, \\n, got: " ++ s)) ∧
    esr_init none none = .ok ⟨"\r\n", 15⟩ ∧
    esr_init (some 0) none = .ok ⟨"\r\n", 15⟩ := by
  refine ⟨?_, ?_, by decide, by decide⟩
  · have hne : p ≠ 0 := ne_of_lt hp
    simp [esr_init, checkSep, pyOrDefault, set_ping_interval, hne, le_of_lt hp]
  · intro ping
    simp [esr_init, checkSep, hs1, hs2, hs3]

/-- Witness for C3 at `ping = -1` and separator `"x"`. -/
theorem C3_construction_validation_witness :
    esr_init (some (-1)) none = .error "ping interval must be greater than 0" ∧
    esr_init none (some "x") = .error ("sep must be one of: \\r\\n, \\r, \\n, got: " ++ "x") ∧
    esr_init none none = .ok ⟨"\r\n", 15⟩ ∧
    esr_init (some 0) none = .ok ⟨"\r\n", 15⟩ := by
  have h := C3_construction_validation (-1) "x" (by norm_num) (by decide) (by decide) (by decide)
  exact ⟨h.1, h.2.1 none, h.2.2.1, h.2.2.2⟩

/-- The event with `event="message"` and `data=1` from the spec's
example. -/
def msgDataEvent : ServerSentEvent :=
  { event := some (.pyStr "message"), data := some (.pyInt 1) }

/-- Claim C4: a well-typed event encodes as its set fields in the fixed
order comment, id, event, data, retry, followed by exactly one trailing
separator-only line; in particular the event with `event="message"`,
`data=1` and the default separator encodes to exactly
b"event: message\r\ndata: 1\r\n\r\n". -/
theorem C4_field_order (e : ServerSentEvent) (h : retryWellTyped e = true) :
    e.encode = .ok (commentPart e ++ (idPart e ++ (eventPart e ++
      (dataPart e ++ (retryPart e ++ e.sep))))) ∧
    msgDataEvent.encode = .ok "event: message\r\ndata: 1\r\n\r\n" :=
  ⟨encode_parts e h, by decide⟩

/-- Witness for C4 at the concrete event with `event="message"`,
`data=1`. -/
theorem C4_field_order_witness :
    (msgDataEvent.encode = .ok (commentPart msgDataEvent ++ (idPart msgDataEvent ++
      (eventPart msgDataEvent ++ (dataPart msgDataEvent ++
        (retryPart msgDataEvent ++ msgDataEvent.sep)))))) ∧
    msgDataEvent.encode = .ok "event: message\r\ndata: 1\r\n\r\n" :=
  C4_field_order msgDataEvent (by decide)

/-- Claim C5: `data` and `comment` values are split on any newline style
and emitted one prefixed wire line per fragment (prefix `"data: "` or
`": "`), empty fragments kept as their own lines (witnessed by the split
of "a\r\n\nb"); in particular `data="line1\nline2"` with the default
separator encodes to exactly b"data: line1\r\ndata: line2\r\n\r\n". -/
theorem C5_data_comment_split (d c sep : String) :
    ServerSentEvent.encode { data := some (.pyStr d), sep := sep }
      = .ok (joinParts ((splitNewlines d).map (fun chunk => "data: " ++ chunk ++ sep)) ++ sep) ∧
    ServerSentEvent.encode { comment := some (.pyStr c), sep := sep }
      = .ok (joinParts ((splitNewlines c).map (fun chunk => ": " ++ chunk ++ sep)) ++ sep) ∧
    splitNewlines "a\r\n\nb" = ["a", "", "b"] ∧
    ServerSentEvent.encode { data := some (.pyStr "line1\nline2") }
      = .ok "data: line1\r\ndata: line2\r\n\r\n" := by
  refine ⟨?_, ?_, by decide, by decide⟩
  · simp [ServerSentEvent.encode, foldl_write, pyToString]
  · simp [ServerSentEvent.encode, foldl_write, pyToString]

/-- Claim C6: embedded newlines in `id` and `event` are stripped, not
split: each field is emitted as a single physical wire line containing no
newline character. -/
theorem C6_id_event_single_line (i ev sep : String) :
    ServerSentEvent.encode { id := some (.pyStr i), event := some (.pyStr ev), sep := sep }
      = .ok (("id: " ++ stripNewlines i ++ sep) ++ (("event: " ++ stripNewlines ev ++ sep) ++ sep)) ∧
    containsNewline (stripNewlines i) = false ∧
    containsNewline (stripNewlines ev) = false := by
  refine ⟨?_, containsNewline_stripNewlines i, containsNewline_stripNewlines ev⟩
  have hid : stripNewlines "id: " = "id: " := by decide
  have hev : stripNewlines "event: " = "event: " := by decide
  simp [ServerSentEvent.encode, pyToString, stripNewlines_append, hid, hev, String.append_assoc]

/-- Claim C7: an event whose `retry` attribute holds a non-integer value
makes `encode` raise (TypeError, the spec's `EncodingError`) and return no
bytes: the result is an error, never an `ok` payload. -/
theorem C7_retry_non_integer (e : ServerSentEvent) (h : retryWellTyped e = false) :
    e.encode = .error "retry argument must be int" := by
  obtain ⟨d, ev, i, r, c, sep⟩ := e
  rcases r with _ | rv
  · simp [retryWellTyped] at h
  · rcases rv with n | s2 | _
    · simp [retryWellTyped] at h
    · simp [ServerSentEvent.encode]
    · simp [ServerSentEvent.encode]

/-- Witness for C7 at an event with the string `"soon"` as retry value. -/
theorem C7_retry_non_integer_witness :
    ServerSentEvent.encode { retry := some (.pyStr "soon") }
      = .error "retry argument must be int" :=
  C7_retry_non_integer { retry := some (.pyStr "soon") } (by decide)

/-- Claim C8: if the process-wide `should_exit` flag is already set when
the shutdown listener starts, it returns immediately with the state
untouched (no wait-handle registered); and if the flag is set between the
first check and the second (after the event was created), the re-check
still returns immediately, so the shutdown signal is never lost. -/
theorem C8_exit_signal_immediate (s : AppStatusState) (f : Bool) :
    (s.should_exit = true → listen_for_exit_signal s f = (.immediateReturn, s)) ∧
    (f = true → (listen_for_exit_signal s f).1 = .immediateReturn) := by
  constructor
  · intro h
    simp [listen_for_exit_signal, h]
  · intro h
    subst h
    by_cases hs : s.should_exit <;> by_cases he : s.event_created <;>
      simp [listen_for_exit_signal, hs, he]

/-- Witness for C8: the flag already set before the call, and the flag set
during event setup. -/
theorem C8_exit_signal_immediate_witness :
    listen_for_exit_signal ⟨true, false⟩ false = (.immediateReturn, ⟨true, false⟩) ∧
    (listen_for_exit_signal ⟨false, false⟩ true).1 = .immediateReturn :=
  ⟨(C8_exit_signal_immediate ⟨true, false⟩ false).1 rfl,
   (C8_exit_signal_immediate ⟨false, false⟩ true).2 rfl⟩

/-- Claim C9: `ensure_bytes` is the identity on `bytes` input — the chunk
is returned verbatim, nothing is re-encoded, and the separator argument
plays no role. -/
theorem C9_bytes_passthrough (b sep sep2 : String) :
    ensure_bytes (.bytes b) sep = (.bytes b, .ok b) ∧
    ensure_bytes (.bytes b) sep = ensure_bytes (.bytes b) sep2 :=
  ⟨rfl, rfl⟩

/-- Claim C10: on a mapping, `ensure_bytes` first mutates the caller's
dict in place by `data["sep"] = sep`, overwriting any caller-supplied
`"sep"` entry with the response separator while leaving every other key's
binding unchanged, and only then constructs the event from the mutated
mapping. -/
theorem C10_dict_mutation (m : List (String × PyVal)) (sep k : String) (hk : k ≠ "sep") :
    (ensure_bytes (.dict m) sep).1 = .dict (dictSet m "sep" (.pyStr sep)) ∧
    dictGet (dictSet m "sep" (.pyStr sep)) "sep" = some (.pyStr sep) ∧
    dictGet (dictSet m "sep" (.pyStr sep)) k = dictGet m k ∧
    (ensure_bytes (.dict m) sep).2
      = (sseFromKwargs (dictSet m "sep" (.pyStr sep))).bind ServerSentEvent.encode :=
  ⟨rfl, dictGet_dictSet_self m "sep" _, dictGet_dictSet_ne m "sep" k _ hk, rfl⟩

/-- Witness for C10 at a mapping that already carries a `"sep"` entry. -/
theorem C10_dict_mutation_witness :
    (ensure_bytes (.dict [("sep", PyVal.pyStr "\n"), ("data", PyVal.pyStr "x")]) "\r\n").1
      = .dict (dictSet [("sep", PyVal.pyStr "\n"), ("data", PyVal.pyStr "x")] "sep" (.pyStr "\r\n")) ∧
    dictGet (dictSet [("sep", PyVal.pyStr "\n"), ("data", PyVal.pyStr "x")] "sep" (.pyStr "\r\n")) "sep"
      = some (.pyStr "\r\n") ∧
    dictGet (dictSet [("sep", PyVal.pyStr "\n"), ("data", PyVal.pyStr "x")] "sep" (.pyStr "\r\n")) "data"
      = dictGet [("sep", PyVal.pyStr "\n"), ("data", PyVal.pyStr "x")] "data" ∧
    (ensure_bytes (.dict [("sep", PyVal.pyStr "\n"), ("data", PyVal.pyStr "x")]) "\r\n").2
      = (sseFromKwargs (dictSet [("sep", PyVal.pyStr "\n"), ("data", PyVal.pyStr "x")] "sep"
          (.pyStr "\r\n"))).bind ServerSentEvent.encode :=
  C10_dict_mutation [("sep", PyVal.pyStr "\n"), ("data", PyVal.pyStr "x")] "\r\n" "data"
    (by decide)

end SSEStarlette
